import Mathlib

/-!
Verification development for `src/dozy.ino`, the control core of a
single-relay, WiFi-connected switch appliance (repository `ai91/dozy`).

The definitions below are a shallow embedding of the sketch's global state
and functions.  Calls into external libraries (WiFiManager, PubSubClient,
ArduinoOTA, mDNSResolver, LittleFS, `digitalWrite`, `delay`) are modelled as
trace events appended to an event list, or as boolean inputs supplied by the
environment (raw switch level, WiFi status, MQTT connect outcome).  All
`unsigned long` arithmetic (`millis()` differences) is modelled exactly as
32-bit wrap-around subtraction.
-/

namespace Dozy

/-- Width of the C `unsigned long` (32 bits on the ESP8266): 2^32. -/
def WRAP : Nat := 4294967296

/-- Unsigned 32-bit subtraction `a - b`, as computed by C expressions such as
`millis() - manualSetupActivatorTime` in the sketch. -/
def wsub32 (a b : Nat) : Nat := (a % WRAP + (WRAP - b % WRAP)) % WRAP

/-- Sketch constant `CONFIG_TIMEOUT_MS` (provisioning-mode timeout). -/
def CONFIG_TIMEOUT_MS : Nat := 300000

/-- Sketch constant `OTA_TIMEOUT_MS` (update-mode timeout). -/
def OTA_TIMEOUT_MS : Nat := 300000

/-- Sketch constant `MANUAL_SETUP_MAX_DELAY_MS` (gesture window). -/
def MANUAL_SETUP_MAX_DELAY_MS : Nat := 500

/-- Sketch constant `MANUAL_SETUP_COUNTER` (gesture threshold). -/
def MANUAL_SETUP_COUNTER : Nat := 5

/-- Sketch constant `CMD_ON` = `"1"`. -/
def CMD_ON : List Char := ['1']

/-- Sketch constant `CMD_OFF` = `"0"`. -/
def CMD_OFF : List Char := ['0']

/-- Sketch constant `CMD_SETUP` = `"set"`. -/
def CMD_SETUP : List Char := ['s', 'e', 't']

/-- Sketch constant `CMD_OTA` = `"ota"`. -/
def CMD_OTA : List Char := ['o', 't', 'a']

/-- Sketch constant `CMD_RESET` = `"rst"`. -/
def CMD_RESET : List Char := ['r', 's', 't']

/-- Externally observable actions of the sketch: MQTT publishes, calls into
the WiFiManager / OTA / mDNS / ticker libraries, GPIO writes, the power-save
`delay(LOOP_DELAY_MS)` and the final `ESP.restart()`.  A publish carries the
payload characters (`mqttMsg`) and the retain flag; the topic is always the
configured `mqttOutTopic`. -/
inductive Event where
  | publish (payload : List Char) (retained : Bool)
  | subscribe
  | relayWrite (level : Bool)
  | ledGreenWrite (level : Bool)
  | ledRedWrite (level : Bool)
  | startConfigPortal
  | autoConnect
  | stopConfigPortal
  | otaBegin
  | otaHandle
  | espRestart
  | wifiManagerProcess
  | mqttClientLoop
  | mqttConnectTry (ok : Bool)
  | delaySleep
  | mqttSetServer
  | mdnsLoop
  | ledTickerAttach (intervalMs : Nat)
  deriving DecidableEq, Repr

/-- The global mutable state of the sketch, plus the pin levels of the three
output GPIOs (`true` = HIGH) and the trace of external events so far.
`mqttConnected` mirrors `mqttClient.connected()`.  `manualSetupModeCounter`
is a C `int` holding only the values 0..counter reached, so it is a `Nat`
here. -/
structure DozyState where
  offline : Bool
  wifiManagerSetupRunning : Bool
  wifiManagerSetupStart : Nat
  otaRunning : Bool
  otaStart : Nat
  restart : Bool
  mqttConnectAttempt : Nat
  mqttConnectDelay : Nat
  mqttConnected : Bool
  momentarySwitch : Bool
  sState : Bool
  lState : Bool
  gpioTrigger : Bool
  manualSetupActivatorTime : Nat
  manualSetupModeCounter : Nat
  relayPin : Bool
  ledGreenPin : Bool
  ledRedPin : Bool
  events : List Event
  deriving DecidableEq, Repr

/-- Function `mqttCommunicate()`: when the device is online and the MQTT
client is connected, build `mqttMsg` (relay state char, plus `'.'` exactly
when `gpioTrigger` is set), clear `gpioTrigger`, and publish retained.
Otherwise do nothing (the publish is silently dropped and, per the source,
`gpioTrigger` is left untouched). -/
def mqttCommunicate (s : DozyState) : DozyState :=
  if !s.offline && s.mqttConnected then
    let msg := (if s.lState then '1' else '0') :: (if s.gpioTrigger then ['.'] else [])
    { s with gpioTrigger := false,
             events := s.events ++ [Event.publish msg true] }
  else s

/-- Function `enableL()`: `digitalWrite(RELAY, HIGH)`, `digitalWrite(LED_GREEN, LOW)`
(the green LED is active low, so LOW turns it on), set `lState = true`, then
`mqttCommunicate()`. -/
def enableL (s : DozyState) : DozyState :=
  mqttCommunicate
    { s with relayPin := true, ledGreenPin := false, lState := true,
             events := s.events ++ [Event.relayWrite true, Event.ledGreenWrite false] }

/-- Function `disableL()`: `digitalWrite(RELAY, LOW)`, `digitalWrite(LED_GREEN, HIGH)`,
set `lState = false`, then `mqttCommunicate()`. -/
def disableL (s : DozyState) : DozyState :=
  mqttCommunicate
    { s with relayPin := false, ledGreenPin := true, lState := false,
             events := s.events ++ [Event.relayWrite false, Event.ledGreenWrite true] }

/-- Function `startWifiManager(onDemand)`: returns immediately when the
config portal is already running; otherwise (modelling only the library
calls, whose configuration-loading details live outside the core) it starts
the on-demand config portal or the `autoConnect` flow. -/
def startWifiManager (onDemand : Bool) (s : DozyState) : DozyState :=
  if s.wifiManagerSetupRunning then s
  else if onDemand then { s with events := s.events ++ [Event.startConfigPortal] }
  else { s with events := s.events ++ [Event.autoConnect] }

/-- Callback `wifiManagerSetupStarted` (WiFiManager AP callback): start slow
LED blinking, record that setup mode is running and its start time. -/
def wifiManagerSetupStarted (now : Nat) (s : DozyState) : DozyState :=
  { s with wifiManagerSetupRunning := true, wifiManagerSetupStart := now,
           events := s.events ++ [Event.ledTickerAttach 1000] }

/-- Function `wifiManagerSetupStopped()`: only schedules a restart (the
commented-out code in the source does nothing). -/
def wifiManagerSetupStopped (s : DozyState) : DozyState :=
  { s with restart := true }

/-- Callback `ledTick()`: invert the red LED pin. -/
def ledTick (s : DozyState) : DozyState :=
  { s with ledRedPin := !s.ledRedPin,
           events := s.events ++ [Event.ledRedWrite (!s.ledRedPin)] }

/-- The `ArduinoOTA.onProgress` lambda registered in `setup()`: alternate the
red and green LEDs (read LED_RED; if HIGH, drive RED LOW / GREEN HIGH, else
RED HIGH / GREEN LOW). -/
def otaProgress (s : DozyState) : DozyState :=
  if s.ledRedPin then
    { s with ledRedPin := false, ledGreenPin := true,
             events := s.events ++ [Event.ledRedWrite false, Event.ledGreenWrite true] }
  else
    { s with ledRedPin := true, ledGreenPin := false,
             events := s.events ++ [Event.ledRedWrite true, Event.ledGreenWrite false] }

/-- The gesture-detector portion of the global state: the consecutive-press
counter `manualSetupModeCounter` and the last transition time
`manualSetupActivatorTime`. -/
structure GestureState where
  counter : Nat
  activatorTime : Nat
  deriving DecidableEq, Repr

/-- One gesture step (lines 248-258 of `gpioLoop`), run on every debounced
switch transition: compute `manualSetupActivatorDelay = millis() -
manualSetupActivatorTime` (32-bit unsigned); if it is below
`MANUAL_SETUP_MAX_DELAY_MS` pre-increment the counter and fire
(`startWifiManager(true)`) exactly when the counter just reached
`MANUAL_SETUP_COUNTER`; otherwise reset the counter to 0.  Finally record
the transition time.  Returns the new state and whether the enter-setup
request fired. -/
def gestureStep (now : Nat) (s : GestureState) : GestureState × Bool :=
  if wsub32 now s.activatorTime < MANUAL_SETUP_MAX_DELAY_MS then
    (⟨s.counter + 1, now⟩, s.counter + 1 == MANUAL_SETUP_COUNTER)
  else
    (⟨0, now⟩, false)

/-- The list of fire flags produced by running the gesture detector over a
list of transition timestamps. -/
def gestureFires (s : GestureState) : List Nat → List Bool
  | [] => []
  | t :: ts => (gestureStep t s).2 :: gestureFires (gestureStep t s).1 ts

/-- The relay-toggling portion of `gpioLoop` executed on a debounced switch
transition (lines 224-246): set `gpioTrigger`; in momentary mode toggle the
relay only on a press and merely publish on a release; otherwise toggle on
every transition and then publish a second time (the second publish sees
`gpioTrigger` already cleared when the first publish went out). -/
def gpioRelay (s : DozyState) : DozyState :=
  let s := { s with gpioTrigger := true }
  if s.momentarySwitch then
    if s.sState then
      if s.lState then disableL s else enableL s
    else
      mqttCommunicate s
  else
    mqttCommunicate (if s.lState then disableL s else enableL s)

/-- The gesture part of `gpioLoop` (lines 248-258), expressed through
`gestureStep`; when the counter just reached the threshold the sketch calls
`startWifiManager(true)`.  In the source the final
`manualSetupActivatorTime = millis()` assignment happens after that call,
which never touches the activator time, so storing it inside `gestureStep`
is equivalent. -/
def gpioGesture (now : Nat) (s : DozyState) : DozyState :=
  let r := gestureStep now ⟨s.manualSetupModeCounter, s.manualSetupActivatorTime⟩
  let s := { s with manualSetupModeCounter := r.1.counter,
                    manualSetupActivatorTime := r.1.activatorTime }
  if r.2 then startWifiManager true s else s

/-- Debounced sampling at the top of `gpioLoop` (lines 211-222):
`pressedRaw` is the sampled `digitalRead(SWITCH) == LOW`.  Returns the state
with `sState` updated and the `sChanged` flag. -/
def gpioSample (pressedRaw : Bool) (s : DozyState) : DozyState × Bool :=
  if pressedRaw then
    ({ s with sState := true }, s.sState == false)
  else
    ({ s with sState := false }, s.sState == true)

/-- Function `gpioLoop()`: sample the switch; on a transition run the
relay-toggle logic and then the gesture detector. -/
def gpioLoop (pressedRaw : Bool) (now : Nat) (s0 : DozyState) : DozyState :=
  let p := gpioSample pressedRaw s0
  let s1 := p.1
  let s2 := if p.2 then gpioRelay s1 else s1
  if p.2 then gpioGesture now s2 else s2

/-- The first block of `wifimanagerLoop` (lines 265-276): while setup mode
is running, enforce the `CONFIG_TIMEOUT_MS` timeout (stop the portal and
schedule a restart through `wifiManagerSetupStopped`); otherwise drive the
red LED from the `offline` flag. -/
def wmTimeoutCheck (now : Nat) (s : DozyState) : DozyState :=
  if s.wifiManagerSetupRunning then
    if wsub32 now s.wifiManagerSetupStart > CONFIG_TIMEOUT_MS then
      wifiManagerSetupStopped { s with events := s.events ++ [Event.stopConfigPortal] }
    else s
  else
    if s.offline then
      { s with ledRedPin := false, events := s.events ++ [Event.ledRedWrite false] }
    else
      { s with ledRedPin := true, events := s.events ++ [Event.ledRedWrite true] }

/-- The second block of `wifimanagerLoop` (lines 278-292): refresh `offline`
from the sampled WiFi status, performing the one-shot mDNS lookup and
`mqttClient.setServer` call on the offline-to-online edge. -/
def wmWifiStatus (wifiConnected : Bool) (s : DozyState) : DozyState :=
  if wifiConnected then
    let s := if s.offline then { s with events := s.events ++ [Event.mqttSetServer] } else s
    { s with offline := false }
  else
    { s with offline := true }

/-- Function `wifimanagerLoop()`: `wifiManager.process()`, then the timeout
check / LED block, then the WiFi-status block, then `mDnsResolver.loop()`
while online. -/
def wifimanagerLoop (now : Nat) (wifiConnected : Bool) (s : DozyState) : DozyState :=
  let s := { s with events := s.events ++ [Event.wifiManagerProcess] }
  let s := wmTimeoutCheck now s
  let s := wmWifiStatus wifiConnected s
  if !s.offline then { s with events := s.events ++ [Event.mdnsLoop] } else s

/-- Function `mqttReconnect()`: when not connected and the time since the
last attempt exceeds `mqttConnectDelay`, bump the delay by 1000 ms (capped
at 60000 ms), record the attempt time, and try to connect (`connectOk` is
the outcome of `mqttClient.connect`).  On success resubscribe and reset the
delay to 0.  Returns the new state and the C return value. -/
def mqttReconnect (now : Nat) (connectOk : Bool) (s : DozyState) : DozyState × Bool :=
  if !s.mqttConnected then
    if wsub32 now s.mqttConnectAttempt > s.mqttConnectDelay then
      let d := s.mqttConnectDelay + 1000
      let d := if d > 60000 then 60000 else d
      let s := { s with mqttConnectDelay := d, mqttConnectAttempt := now,
                        events := s.events ++ [Event.mqttConnectTry connectOk] }
      if connectOk then
        ({ s with mqttConnected := true, mqttConnectDelay := 0,
                  events := s.events ++ [Event.subscribe] }, true)
      else (s, false)
    else (s, false)
  else (s, false)

/-- Function `mqttLoop()`: when disconnected, try `mqttReconnect()` and bail
out on failure; then service the client (`mqttClient.loop()`). -/
def mqttLoop (now : Nat) (connectOk : Bool) (s : DozyState) : DozyState :=
  if !s.mqttConnected then
    let r := mqttReconnect now connectOk s
    if !r.2 then r.1
    else { r.1 with events := r.1.events ++ [Event.mqttClientLoop] }
  else
    { s with events := s.events ++ [Event.mqttClientLoop] }

/-- Truncation applied to an inbound payload by `mqttCallback` before
matching: at most 9 characters are copied (`strncpy`), and the C string
stops at the first NUL byte. -/
def payloadToCmd (payload : List Char) : List Char :=
  (payload.take 9).takeWhile (fun c => c != Char.ofNat 0)

/-- Callback `mqttCallback(topic, payload, length)`: match the truncated
payload against the five command keywords with `String::startsWith`, in
source order, each test independent of the others. -/
def mqttCallback (payload : List Char) (now : Nat) (s : DozyState) : DozyState :=
  let cmd := payloadToCmd payload
  let s := if CMD_SETUP.isPrefixOf cmd then startWifiManager true s else s
  let s := if CMD_RESET.isPrefixOf cmd then { s with restart := true } else s
  let s := if CMD_OTA.isPrefixOf cmd then
             { s with otaStart := now, otaRunning := true,
                      events := s.events ++ [Event.ledTickerAttach 300, Event.otaBegin] }
           else s
  let s := if CMD_ON.isPrefixOf cmd then enableL s else s
  if CMD_OFF.isPrefixOf cmd then disableL s else s

/-- Function `loop()`, one control-loop tick: in update mode service OTA and
enforce its timeout; otherwise run `gpioLoop`, `wifimanagerLoop`, `mqttLoop`
(only when online) and the power-save delay.  At the very end of the tick,
honour a pending restart. -/
def loop (pressedRaw : Bool) (now : Nat) (wifiConnected connectOk : Bool)
    (s : DozyState) : DozyState :=
  let s :=
    if s.otaRunning then
      let s := { s with events := s.events ++ [Event.otaHandle] }
      if wsub32 now s.otaStart > OTA_TIMEOUT_MS then { s with restart := true } else s
    else
      let s := gpioLoop pressedRaw now s
      let s := wifimanagerLoop now wifiConnected s
      let s := if !s.offline then mqttLoop now connectOk s else s
      { s with events := s.events ++ [Event.delaySleep] }
  if s.restart then { s with events := s.events ++ [Event.espRestart] } else s

/-- The state at the end of `setup()`: the red and green LEDs are driven
HIGH (off), `sState` is the sampled switch level, `gpioTrigger` is false,
the gesture counter is 0, and `startWifiManager(false)` has run.  The other
globals hold their C zero-initialised values; in particular `lState` is
false and the RELAY pin, configured as an output but never written during
`setup()`, is at its power-on LOW level.  `switchLow` is the initial
`digitalRead(SWITCH) == LOW`; `momentary` is the configured momentary-switch
flag loaded from the config file. -/
def setupEndState (switchLow momentary : Bool) : DozyState where
  offline := true
  wifiManagerSetupRunning := false
  wifiManagerSetupStart := 0
  otaRunning := false
  otaStart := 0
  restart := false
  mqttConnectAttempt := 0
  mqttConnectDelay := 0
  mqttConnected := false
  momentarySwitch := momentary
  sState := switchLow
  lState := false
  gpioTrigger := false
  manualSetupActivatorTime := 0
  manualSetupModeCounter := 0
  relayPin := false
  ledGreenPin := true
  ledRedPin := true
  events := [Event.ledRedWrite true, Event.ledGreenWrite true, Event.autoConnect]

/-- The five inbound commands recognised by the dispatcher. -/
inductive Action where
  | enterProvisioning
  | reset
  | enterUpdate
  | turnOn
  | turnOff
  deriving DecidableEq, Repr

/-- The list of actions whose keyword test succeeds in `mqttCallback`, in
source order (`set`, `rst`, `ota`, `1`, `0`): a direct transcription of the
five independent `cmd.startsWith` tests. -/
def dispatchActions (cmd : List Char) : List Action :=
  (if CMD_SETUP.isPrefixOf cmd then [Action.enterProvisioning] else []) ++
  (if CMD_RESET.isPrefixOf cmd then [Action.reset] else []) ++
  (if CMD_OTA.isPrefixOf cmd then [Action.enterUpdate] else []) ++
  (if CMD_ON.isPrefixOf cmd then [Action.turnOn] else []) ++
  (if CMD_OFF.isPrefixOf cmd then [Action.turnOff] else [])

/-- Modelled from the spec's words (for the refinement claim about command
classification): keyword matching that is first-match-wins in the fixed
order EnterProvisioning, Reset, EnterUpdate, TurnOn, TurnOff. -/
def specClassify (cmd : List Char) : Option Action :=
  if CMD_SETUP.isPrefixOf cmd then some Action.enterProvisioning
  else if CMD_RESET.isPrefixOf cmd then some Action.reset
  else if CMD_OTA.isPrefixOf cmd then some Action.enterUpdate
  else if CMD_ON.isPrefixOf cmd then some Action.turnOn
  else if CMD_OFF.isPrefixOf cmd then some Action.turnOff
  else none

/-- Schedule validity for a sequence of MQTT connect attempts: each
timestamp lies beyond the backoff window of the previous attempt (the
threaded delay follows the sketch's bump-then-cap rule). -/
def schedOk (attempt delay : Nat) : List Nat → Bool
  | [] => true
  | t :: ts =>
      decide (attempt ≤ t) && decide (t < WRAP) && decide (delay < t - attempt) &&
      schedOk t (min (delay + 1000) 60000) ts

/-- Run `mqttReconnect` over a list of attempt times, every attempt failing. -/
def reconnectFailRun (s : DozyState) : List Nat → DozyState
  | [] => s
  | t :: ts => reconnectFailRun (mqttReconnect t false s).1 ts

/-- The publish payloads recorded in a state's event trace, oldest first. -/
def publishesOf (s : DozyState) : List (List Char) :=
  s.events.filterMap fun e =>
    match e with
    | Event.publish p _ => some p
    | _ => none

/-- The relay levels written in a state's event trace, oldest first. -/
def relayWritesOf (s : DozyState) : List Bool :=
  s.events.filterMap fun e =>
    match e with
    | Event.relayWrite b => some b
    | _ => none

/-- Events that the switch-input phase (`gpioLoop`) can emit. -/
def isGpioPhaseEvent : Event → Bool
  | Event.relayWrite _ => true
  | Event.ledGreenWrite _ => true
  | Event.publish _ _ => true
  | Event.startConfigPortal => true
  | _ => false

/-- Events that the WiFiManager-servicing phase (`wifimanagerLoop`) can
emit. -/
def isWmPhaseEvent : Event → Bool
  | Event.wifiManagerProcess => true
  | Event.stopConfigPortal => true
  | Event.ledRedWrite _ => true
  | Event.mqttSetServer => true
  | Event.mdnsLoop => true
  | _ => false

/-- Events that the MQTT-servicing phase (`mqttLoop`) can emit. -/
def isMqttPhaseEvent : Event → Bool
  | Event.mqttClientLoop => true
  | Event.mqttConnectTry _ => true
  | Event.subscribe => true
  | _ => false

/-- State `t` extends state `s` by appending only events satisfying `P`. -/
def EventsExtend (P : Event → Prop) (s t : DozyState) : Prop :=
  ∃ l, t.events = s.events ++ l ∧ ∀ e ∈ l, P e

/-- The invariant relating the relay output, the green LED and `lState`:
the RELAY pin is HIGH exactly when `lState` holds, and the (active-low)
green LED is lit exactly when `lState` holds. -/
def InvC10 (s : DozyState) : Prop :=
  s.relayPin = s.lState ∧ (!s.ledGreenPin) = s.lState

instance decInvC10 (s : DozyState) : Decidable (InvC10 s) := by
  unfold InvC10; infer_instance

/-- The payload `"setota"` used by the command-precedence claim. -/
def setotaPayload : List Char := ['s', 'e', 't', 'o', 't', 'a']

/-- Fold of the gesture detector over a list of transition timestamps,
keeping only the final state. -/
def gestureRunState (s : GestureState) (ts : List Nat) : GestureState :=
  ts.foldl (fun s t => (gestureStep t s).1) s

/-- A plain concrete state used to instantiate theorems: online, MQTT
connected, relay off, no pending activity, empty trace. -/
def baseState : DozyState where
  offline := false
  wifiManagerSetupRunning := false
  wifiManagerSetupStart := 0
  otaRunning := false
  otaStart := 0
  restart := false
  mqttConnectAttempt := 0
  mqttConnectDelay := 0
  mqttConnected := true
  momentarySwitch := false
  sState := false
  lState := false
  gpioTrigger := false
  manualSetupActivatorTime := 0
  manualSetupModeCounter := 0
  relayPin := false
  ledGreenPin := true
  ledRedPin := true
  events := []

/-- Concrete state for the C3 counterexample: offline with the user-trigger
flag set. -/
def c3State : DozyState := { baseState with offline := true, gpioTrigger := true }

/-- Concrete state for the C6 witness: provisioning mode running since
millisecond 1000. -/
def c6State : DozyState :=
  { baseState with wifiManagerSetupRunning := true, wifiManagerSetupStart := 1000 }

/-- Concrete state for the C5 witness: MQTT disconnected, no attempt yet. -/
def c5State : DozyState := { baseState with mqttConnected := false }

/-- Concrete state for the C8 counterexample: online and connected, with
provisioning mode running since millisecond 0. -/
def c8State : DozyState := { baseState with wifiManagerSetupRunning := true }

/-- Concrete state for the C10 counterexample: relay on, green LED lit
(LED pin LOW), red LED pin HIGH. -/
def c10State : DozyState :=
  { baseState with lState := true, relayPin := true, ledGreenPin := false }

/-! ## Arithmetic of 32-bit unsigned time differences -/

theorem wsub32_sub {a b : Nat} (hle : b ≤ a) (hw : a < WRAP) : wsub32 a b = a - b := by
  unfold wsub32 WRAP
  unfold WRAP at hw
  omega

theorem wsub32_wrap {b e : Nat} (hb : b < WRAP) (he : e < WRAP) :
    wsub32 ((b + e) % WRAP) b = e := by
  unfold wsub32 WRAP
  unfold WRAP at hb he
  omega

/-! ## Gesture detector lemmas -/

theorem gestureStep_in {now : Nat} {s : GestureState}
    (h : wsub32 now s.activatorTime < MANUAL_SETUP_MAX_DELAY_MS) :
    gestureStep now s = (⟨s.counter + 1, now⟩, s.counter + 1 == MANUAL_SETUP_COUNTER) := by
  unfold gestureStep
  rw [if_pos h]

theorem gestureStep_out {now : Nat} {s : GestureState}
    (h : ¬ wsub32 now s.activatorTime < MANUAL_SETUP_MAX_DELAY_MS) :
    gestureStep now s = (⟨0, now⟩, false) := by
  unfold gestureStep
  rw [if_neg h]

theorem gestureStep_activator (now : Nat) (s : GestureState) :
    (gestureStep now s).1.activatorTime = now := by
  unfold gestureStep
  split <;> rfl

/-- If fewer than `MANUAL_SETUP_COUNTER` increments are available, no step of
a gesture run can fire. -/
theorem gestureFires_no_fire (ts : List Nat) :
    ∀ s : GestureState, s.counter + ts.length < MANUAL_SETUP_COUNTER →
      gestureFires s ts = List.replicate ts.length false := by
  induction ts with
  | nil => intro s _; rfl
  | cons t ts ih =>
      intro s h
      simp only [List.length_cons] at h
      by_cases hc : wsub32 t s.activatorTime < MANUAL_SETUP_MAX_DELAY_MS
      · have hflag : (s.counter + 1 == MANUAL_SETUP_COUNTER) = false := by
          unfold MANUAL_SETUP_COUNTER
          unfold MANUAL_SETUP_COUNTER at h
          simp only [beq_eq_false_iff_ne, ne_eq]
          omega
        simp only [gestureFires, gestureStep_in hc, hflag, List.replicate]
        rw [ih ⟨s.counter + 1, t⟩ (by simpa using by omega)]
      · simp only [gestureFires, gestureStep_out hc, List.replicate]
        rw [ih ⟨0, t⟩ (by simpa using by omega)]

theorem gestureFires_append (l1 : List Nat) :
    ∀ (s : GestureState) (l2 : List Nat),
      gestureFires s (l1 ++ l2)
        = gestureFires s l1 ++ gestureFires (gestureRunState s l1) l2 := by
  induction l1 with
  | nil => intro s l2; rfl
  | cons t ts ih =>
      intro s l2
      simp only [List.cons_append, gestureFires, gestureRunState, List.foldl_cons,
        List.append_eq]
      rw [ih]
      rfl

theorem gestureRunState_cons (s : GestureState) (t : Nat) (ts : List Nat) :
    gestureRunState s (t :: ts) = gestureRunState (gestureStep t s).1 ts := rfl

/-- Claim C1, as stated, is false on the code: five transitions 100 ms
apart (so every inter-transition gap is at most 499 ms), starting from the
reset gesture state of `setup()` with the first transition 1000 ms after the
recorded activator time, produce no enter-provisioning request at all — in
particular not exactly one on the 5th transition.  The code resets the
counter to 0 (not 1) on an out-of-window transition, so only the four later
transitions count. -/
theorem C1_counterexample :
    (1100 - 1000 ≤ 499 ∧ 1200 - 1100 ≤ 499 ∧ 1300 - 1200 ≤ 499 ∧ 1400 - 1300 ≤ 499) ∧
    gestureFires ⟨0, 0⟩ [1000, 1100, 1200, 1300, 1400]
      = [false, false, false, false, false] ∧
    gestureFires ⟨0, 0⟩ [1000, 1100, 1200, 1300, 1400]
      ≠ [false, false, false, false, true] := by
  decide

/-- Claim C1 (amended): starting from a reset counter with an anchor
transition recorded at time `a`, five transitions each within 499 ms of
the previously recorded transition (the first within 499 ms of the anchor)
fire the enter-provisioning request exactly once, on the 5th; if any one of
the five gaps is 500 ms or more, the run never fires.  The counting rule
is: an in-window transition increments the counter and fires exactly when
it reaches 5; an out-of-window transition resets the counter to 0 (it does
not itself count), and firing leaves the counter at 5. -/
theorem C1_gesture_threshold (a t1 t2 t3 t4 t5 : Nat)
    (h1 : a ≤ t1) (h2 : t1 ≤ t2) (h3 : t2 ≤ t3) (h4 : t3 ≤ t4) (h5 : t4 ≤ t5)
    (hw : t5 < WRAP) :
    ((t1 - a ≤ 499 ∧ t2 - t1 ≤ 499 ∧ t3 - t2 ≤ 499 ∧ t4 - t3 ≤ 499 ∧ t5 - t4 ≤ 499) →
      gestureFires ⟨0, a⟩ [t1, t2, t3, t4, t5] = [false, false, false, false, true])
    ∧ ((500 ≤ t1 - a ∨ 500 ≤ t2 - t1 ∨ 500 ≤ t3 - t2 ∨ 500 ≤ t4 - t3 ∨ 500 ≤ t5 - t4) →
      gestureFires ⟨0, a⟩ [t1, t2, t3, t4, t5] = [false, false, false, false, false]) := by
  have hw1 : t1 < WRAP := by omega
  have hw2 : t2 < WRAP := by omega
  have hw3 : t3 < WRAP := by omega
  have hw4 : t4 < WRAP := by omega
  have e1 : wsub32 t1 a = t1 - a := wsub32_sub h1 hw1
  have e2 : wsub32 t2 t1 = t2 - t1 := wsub32_sub h2 hw2
  have e3 : wsub32 t3 t2 = t3 - t2 := wsub32_sub h3 hw3
  have e4 : wsub32 t4 t3 = t4 - t3 := wsub32_sub h4 hw4
  have e5 : wsub32 t5 t4 = t5 - t4 := wsub32_sub h5 hw
  constructor
  · rintro ⟨g1, g2, g3, g4, g5⟩
    have s1 : gestureStep t1 ⟨0, a⟩ = (⟨1, t1⟩, false) := by
      rw [gestureStep_in (by unfold MANUAL_SETUP_MAX_DELAY_MS; simp only; rw [e1]; omega)]
      rfl
    have s2 : gestureStep t2 ⟨1, t1⟩ = (⟨2, t2⟩, false) := by
      rw [gestureStep_in (by unfold MANUAL_SETUP_MAX_DELAY_MS; simp only; rw [e2]; omega)]
      rfl
    have s3 : gestureStep t3 ⟨2, t2⟩ = (⟨3, t3⟩, false) := by
      rw [gestureStep_in (by unfold MANUAL_SETUP_MAX_DELAY_MS; simp only; rw [e3]; omega)]
      rfl
    have s4 : gestureStep t4 ⟨3, t3⟩ = (⟨4, t4⟩, false) := by
      rw [gestureStep_in (by unfold MANUAL_SETUP_MAX_DELAY_MS; simp only; rw [e4]; omega)]
      rfl
    have s5 : gestureStep t5 ⟨4, t4⟩ = (⟨5, t5⟩, true) := by
      rw [gestureStep_in (by unfold MANUAL_SETUP_MAX_DELAY_MS; simp only; rw [e5]; omega)]
      rfl
    simp [gestureFires, s1, s2, s3, s4, s5]
  · intro hbig
    have key : ∀ (pre : List Nat) (tm : Nat) (post : List Nat),
        [t1, t2, t3, t4, t5] = pre ++ tm :: post →
        pre.length + post.length = 4 →
        ¬ wsub32 tm (gestureRunState ⟨0, a⟩ pre).activatorTime
            < MANUAL_SETUP_MAX_DELAY_MS →
        gestureFires ⟨0, a⟩ [t1, t2, t3, t4, t5]
          = [false, false, false, false, false] := by
      intro pre tm post hsplit hlen hout
      rw [hsplit, gestureFires_append]
      rw [gestureFires_no_fire pre ⟨0, a⟩
        (by unfold MANUAL_SETUP_COUNTER; simp only; omega)]
      simp only [gestureFires, gestureStep_out hout]
      rw [gestureFires_no_fire post ⟨0, tm⟩
        (by unfold MANUAL_SETUP_COUNTER; simp only; omega)]
      have hrep : false :: List.replicate post.length false
          = List.replicate (post.length + 1) false := by
        simp [List.replicate_succ]
      rw [hrep, ← List.replicate_add]
      have hlen5 : pre.length + (post.length + 1) = 5 := by omega
      rw [hlen5]
      rfl
    rcases hbig with hb | hb | hb | hb | hb
    · exact key [] t1 [t2, t3, t4, t5] rfl rfl
        (by simp [gestureRunState]; unfold MANUAL_SETUP_MAX_DELAY_MS; rw [e1]; omega)
    · exact key [t1] t2 [t3, t4, t5] rfl rfl
        (by simp [gestureRunState, gestureStep_activator]
            unfold MANUAL_SETUP_MAX_DELAY_MS; rw [e2]; omega)
    · exact key [t1, t2] t3 [t4, t5] rfl rfl
        (by simp [gestureRunState, gestureStep_activator]
            unfold MANUAL_SETUP_MAX_DELAY_MS; rw [e3]; omega)
    · exact key [t1, t2, t3] t4 [t5] rfl rfl
        (by simp [gestureRunState, gestureStep_activator]
            unfold MANUAL_SETUP_MAX_DELAY_MS; rw [e4]; omega)
    · exact key [t1, t2, t3, t4] t5 [] rfl rfl
        (by simp [gestureRunState, gestureStep_activator]
            unfold MANUAL_SETUP_MAX_DELAY_MS; rw [e5]; omega)

/-- Witness for `C1_gesture_threshold` at a concrete anchored run. -/
theorem C1_gesture_threshold_witness :
    gestureFires ⟨0, 0⟩ [100, 200, 300, 400, 499] = [false, false, false, false, true] :=
  (C1_gesture_threshold 0 100 200 300 400 499 (by decide) (by decide) (by decide)
    (by decide) (by decide) (by decide)).1 (by decide)

/-! ## Field-preservation lemmas for the relay pipeline -/

theorem mqttCommunicate_online {s : DozyState} (hoff : s.offline = false)
    (hcon : s.mqttConnected = true) :
    mqttCommunicate s
      = { s with gpioTrigger := false,
                 events := s.events
                   ++ [Event.publish ((if s.lState then '1' else '0')
                        :: (if s.gpioTrigger then ['.'] else [])) true] } := by
  unfold mqttCommunicate
  rw [hoff, hcon]
  rfl

theorem mqttCommunicate_noop {s : DozyState}
    (h : s.offline = true ∨ s.mqttConnected = false) :
    mqttCommunicate s = s := by
  unfold mqttCommunicate
  rcases h with h | h <;> rw [h] <;> simp

@[simp] theorem mqttCommunicate_relayPin (s : DozyState) :
    (mqttCommunicate s).relayPin = s.relayPin := by
  unfold mqttCommunicate; split <;> rfl

@[simp] theorem mqttCommunicate_ledGreenPin (s : DozyState) :
    (mqttCommunicate s).ledGreenPin = s.ledGreenPin := by
  unfold mqttCommunicate; split <;> rfl

@[simp] theorem mqttCommunicate_lState (s : DozyState) :
    (mqttCommunicate s).lState = s.lState := by
  unfold mqttCommunicate; split <;> rfl

@[simp] theorem mqttCommunicate_sState (s : DozyState) :
    (mqttCommunicate s).sState = s.sState := by
  unfold mqttCommunicate; split <;> rfl

@[simp] theorem mqttCommunicate_offline (s : DozyState) :
    (mqttCommunicate s).offline = s.offline := by
  unfold mqttCommunicate; split <;> rfl

@[simp] theorem mqttCommunicate_mqttConnected (s : DozyState) :
    (mqttCommunicate s).mqttConnected = s.mqttConnected := by
  unfold mqttCommunicate; split <;> rfl

@[simp] theorem mqttCommunicate_momentarySwitch (s : DozyState) :
    (mqttCommunicate s).momentarySwitch = s.momentarySwitch := by
  unfold mqttCommunicate; split <;> rfl

@[simp] theorem mqttCommunicate_gpioTrigger (s : DozyState) :
    (mqttCommunicate s).gpioTrigger
      = (if !s.offline && s.mqttConnected then false else s.gpioTrigger) := by
  unfold mqttCommunicate; split <;> simp [*]

@[simp] theorem publishesOf_mqttCommunicate (s : DozyState) :
    publishesOf (mqttCommunicate s)
      = publishesOf s
        ++ (if !s.offline && s.mqttConnected then
              [(if s.lState then '1' else '0') :: (if s.gpioTrigger then ['.'] else [])]
            else []) := by
  unfold mqttCommunicate publishesOf; split <;> simp [*]

@[simp] theorem relayWritesOf_mqttCommunicate (s : DozyState) :
    relayWritesOf (mqttCommunicate s) = relayWritesOf s := by
  unfold mqttCommunicate relayWritesOf; split <;> simp

@[simp] theorem enableL_lState (s : DozyState) : (enableL s).lState = true := by
  unfold enableL; simp

@[simp] theorem enableL_relayPin (s : DozyState) : (enableL s).relayPin = true := by
  unfold enableL; simp

@[simp] theorem enableL_ledGreenPin (s : DozyState) : (enableL s).ledGreenPin = false := by
  unfold enableL; simp

@[simp] theorem disableL_lState (s : DozyState) : (disableL s).lState = false := by
  unfold disableL; simp

@[simp] theorem disableL_relayPin (s : DozyState) : (disableL s).relayPin = false := by
  unfold disableL; simp

@[simp] theorem disableL_ledGreenPin (s : DozyState) : (disableL s).ledGreenPin = true := by
  unfold disableL; simp

@[simp] theorem enableL_sState (s : DozyState) : (enableL s).sState = s.sState := by
  unfold enableL; simp

@[simp] theorem enableL_offline (s : DozyState) : (enableL s).offline = s.offline := by
  unfold enableL; simp

@[simp] theorem enableL_mqttConnected (s : DozyState) :
    (enableL s).mqttConnected = s.mqttConnected := by
  unfold enableL; simp

@[simp] theorem enableL_momentarySwitch (s : DozyState) :
    (enableL s).momentarySwitch = s.momentarySwitch := by
  unfold enableL; simp

@[simp] theorem enableL_gpioTrigger (s : DozyState) :
    (enableL s).gpioTrigger
      = (if !s.offline && s.mqttConnected then false else s.gpioTrigger) := by
  unfold enableL; simp

@[simp] theorem publishesOf_enableL (s : DozyState) :
    publishesOf (enableL s)
      = publishesOf s
        ++ (if !s.offline && s.mqttConnected then
              [('1' :: (if s.gpioTrigger then ['.'] else []))] else []) := by
  unfold enableL
  rw [publishesOf_mqttCommunicate]
  unfold publishesOf
  simp

@[simp] theorem relayWritesOf_enableL (s : DozyState) :
    relayWritesOf (enableL s) = relayWritesOf s ++ [true] := by
  unfold enableL
  rw [relayWritesOf_mqttCommunicate]
  unfold relayWritesOf
  simp

@[simp] theorem disableL_sState (s : DozyState) : (disableL s).sState = s.sState := by
  unfold disableL; simp

@[simp] theorem disableL_offline (s : DozyState) : (disableL s).offline = s.offline := by
  unfold disableL; simp

@[simp] theorem disableL_mqttConnected (s : DozyState) :
    (disableL s).mqttConnected = s.mqttConnected := by
  unfold disableL; simp

@[simp] theorem disableL_momentarySwitch (s : DozyState) :
    (disableL s).momentarySwitch = s.momentarySwitch := by
  unfold disableL; simp

@[simp] theorem disableL_gpioTrigger (s : DozyState) :
    (disableL s).gpioTrigger
      = (if !s.offline && s.mqttConnected then false else s.gpioTrigger) := by
  unfold disableL; simp

@[simp] theorem publishesOf_disableL (s : DozyState) :
    publishesOf (disableL s)
      = publishesOf s
        ++ (if !s.offline && s.mqttConnected then
              [('0' :: (if s.gpioTrigger then ['.'] else []))] else []) := by
  unfold disableL
  rw [publishesOf_mqttCommunicate]
  unfold publishesOf
  simp

@[simp] theorem relayWritesOf_disableL (s : DozyState) :
    relayWritesOf (disableL s) = relayWritesOf s ++ [false] := by
  unfold disableL
  rw [relayWritesOf_mqttCommunicate]
  unfold relayWritesOf
  simp

@[simp] theorem startWifiManager_lState (o : Bool) (s : DozyState) :
    (startWifiManager o s).lState = s.lState := by
  unfold startWifiManager; split_ifs <;> rfl

@[simp] theorem startWifiManager_sState (o : Bool) (s : DozyState) :
    (startWifiManager o s).sState = s.sState := by
  unfold startWifiManager; split_ifs <;> rfl

@[simp] theorem startWifiManager_gpioTrigger (o : Bool) (s : DozyState) :
    (startWifiManager o s).gpioTrigger = s.gpioTrigger := by
  unfold startWifiManager; split_ifs <;> rfl

@[simp] theorem startWifiManager_offline (o : Bool) (s : DozyState) :
    (startWifiManager o s).offline = s.offline := by
  unfold startWifiManager; split_ifs <;> rfl

@[simp] theorem startWifiManager_mqttConnected (o : Bool) (s : DozyState) :
    (startWifiManager o s).mqttConnected = s.mqttConnected := by
  unfold startWifiManager; split_ifs <;> rfl

@[simp] theorem startWifiManager_momentarySwitch (o : Bool) (s : DozyState) :
    (startWifiManager o s).momentarySwitch = s.momentarySwitch := by
  unfold startWifiManager; split_ifs <;> rfl

@[simp] theorem startWifiManager_relayPin (o : Bool) (s : DozyState) :
    (startWifiManager o s).relayPin = s.relayPin := by
  unfold startWifiManager; split_ifs <;> rfl

@[simp] theorem startWifiManager_ledGreenPin (o : Bool) (s : DozyState) :
    (startWifiManager o s).ledGreenPin = s.ledGreenPin := by
  unfold startWifiManager; split_ifs <;> rfl

@[simp] theorem startWifiManager_publishes (o : Bool) (s : DozyState) :
    publishesOf (startWifiManager o s) = publishesOf s := by
  unfold startWifiManager publishesOf; split_ifs <;> simp

@[simp] theorem startWifiManager_relayWrites (o : Bool) (s : DozyState) :
    relayWritesOf (startWifiManager o s) = relayWritesOf s := by
  unfold startWifiManager relayWritesOf; split_ifs <;> simp

@[simp] theorem gpioGesture_lState (n : Nat) (s : DozyState) :
    (gpioGesture n s).lState = s.lState := by
  simp only [gpioGesture]; split <;> simp

@[simp] theorem gpioGesture_sState (n : Nat) (s : DozyState) :
    (gpioGesture n s).sState = s.sState := by
  simp only [gpioGesture]; split <;> simp

@[simp] theorem gpioGesture_gpioTrigger (n : Nat) (s : DozyState) :
    (gpioGesture n s).gpioTrigger = s.gpioTrigger := by
  simp only [gpioGesture]; split <;> simp

@[simp] theorem gpioGesture_offline (n : Nat) (s : DozyState) :
    (gpioGesture n s).offline = s.offline := by
  simp only [gpioGesture]; split <;> simp

@[simp] theorem gpioGesture_mqttConnected (n : Nat) (s : DozyState) :
    (gpioGesture n s).mqttConnected = s.mqttConnected := by
  simp only [gpioGesture]; split <;> simp

@[simp] theorem gpioGesture_momentarySwitch (n : Nat) (s : DozyState) :
    (gpioGesture n s).momentarySwitch = s.momentarySwitch := by
  simp only [gpioGesture]; split <;> simp

@[simp] theorem gpioGesture_relayPin (n : Nat) (s : DozyState) :
    (gpioGesture n s).relayPin = s.relayPin := by
  simp only [gpioGesture]; split <;> simp

@[simp] theorem gpioGesture_ledGreenPin (n : Nat) (s : DozyState) :
    (gpioGesture n s).ledGreenPin = s.ledGreenPin := by
  simp only [gpioGesture]; split <;> simp

@[simp] theorem gpioGesture_publishes (n : Nat) (s : DozyState) :
    publishesOf (gpioGesture n s) = publishesOf s := by
  simp only [gpioGesture]
  split
  · rw [show publishesOf (startWifiManager true _) = _ from startWifiManager_publishes ..]
    unfold publishesOf; simp
  · unfold publishesOf; simp

@[simp] theorem gpioGesture_relayWrites (n : Nat) (s : DozyState) :
    relayWritesOf (gpioGesture n s) = relayWritesOf s := by
  simp only [gpioGesture]
  split
  · rw [show relayWritesOf (startWifiManager true _) = _ from startWifiManager_relayWrites ..]
    unfold relayWritesOf; simp
  · unfold relayWritesOf; simp

/-! ## One debounced transition through `gpioLoop` -/

/-- Non-momentary press with the relay off, while online and connected:
the relay toggles on, with a flagged publish then a plain one. -/
theorem gpioLoop_press_on {s : DozyState} (n : Nat) (hs : s.sState = false)
    (hl : s.lState = false) (hm : s.momentarySwitch = false)
    (hg : s.gpioTrigger = false) (hoff : s.offline = false)
    (hcon : s.mqttConnected = true) :
    (gpioLoop true n s).lState = true ∧ (gpioLoop true n s).sState = true
    ∧ (gpioLoop true n s).gpioTrigger = false
    ∧ (gpioLoop true n s).momentarySwitch = false
    ∧ (gpioLoop true n s).offline = false ∧ (gpioLoop true n s).mqttConnected = true
    ∧ publishesOf (gpioLoop true n s) = publishesOf s ++ [['1', '.'], ['1']]
    ∧ relayWritesOf (gpioLoop true n s) = relayWritesOf s ++ [true] := by
  unfold gpioLoop gpioSample gpioRelay
  simp [hs, hl, hm, hg, hoff, hcon]
  exact ⟨rfl, rfl⟩

/-- Non-momentary release with the relay on, while online and connected:
the relay toggles off, with a flagged publish then a plain one. -/
theorem gpioLoop_release_off {s : DozyState} (n : Nat) (hs : s.sState = true)
    (hl : s.lState = true) (hm : s.momentarySwitch = false)
    (hg : s.gpioTrigger = false) (hoff : s.offline = false)
    (hcon : s.mqttConnected = true) :
    (gpioLoop false n s).lState = false ∧ (gpioLoop false n s).sState = false
    ∧ (gpioLoop false n s).gpioTrigger = false
    ∧ (gpioLoop false n s).momentarySwitch = false
    ∧ (gpioLoop false n s).offline = false ∧ (gpioLoop false n s).mqttConnected = true
    ∧ publishesOf (gpioLoop false n s) = publishesOf s ++ [['0', '.'], ['0']]
    ∧ relayWritesOf (gpioLoop false n s) = relayWritesOf s ++ [false] := by
  unfold gpioLoop gpioSample gpioRelay
  simp [hs, hl, hm, hg, hoff, hcon]
  exact ⟨rfl, rfl⟩

/-- Claim C2, as stated, is false on the code: a press-then-release pair in
non-momentary mode starting from `on = false` does produce the four
publishes (flagged then plain for each transition), but it toggles the
relay twice and therefore ends with `on = false`, not `on = true`. -/
theorem C2_counterexample :
    publishesOf (gpioLoop false 600 (gpioLoop true 300 baseState))
      = [['1', '.'], ['1'], ['0', '.'], ['0']]
    ∧ relayWritesOf (gpioLoop false 600 (gpioLoop true 300 baseState)) = [true, false]
    ∧ (gpioLoop false 600 (gpioLoop true 300 baseState)).lState ≠ true := by
  decide

/-- Claim C2 (amended): in non-momentary mode, starting from relay state
`on = false` while online and MQTT-connected, a single press-then-release
pair of debounced transitions yields exactly two relay toggles and exactly
four publishes in total — for each of the two transitions, first one
publish flagged as a user action (payload ending in `'.'`), then one plain
publish — and the pair ends with `on = false` (the release toggles the
relay back off). -/
theorem C2_nonmomentary_toggle (s : DozyState) (n1 n2 : Nat)
    (hm : s.momentarySwitch = false) (hl : s.lState = false)
    (hs : s.sState = false) (hg : s.gpioTrigger = false)
    (hoff : s.offline = false) (hcon : s.mqttConnected = true) :
    (gpioLoop true n1 s).lState = true
    ∧ (gpioLoop false n2 (gpioLoop true n1 s)).lState = false
    ∧ publishesOf (gpioLoop false n2 (gpioLoop true n1 s))
        = publishesOf s ++ [['1', '.'], ['1'], ['0', '.'], ['0']]
    ∧ relayWritesOf (gpioLoop false n2 (gpioLoop true n1 s))
        = relayWritesOf s ++ [true, false] := by
  obtain ⟨p1, p2, p3, p4, p5, p6, p7, p8⟩ :=
    gpioLoop_press_on n1 hs hl hm hg hoff hcon
  obtain ⟨q1, q2, q3, q4, q5, q6, q7, q8⟩ :=
    gpioLoop_release_off n2 p2 p1 p4 p3 p5 p6
  refine ⟨p1, q1, ?_, ?_⟩
  · rw [q7, p7]; simp
  · rw [q8, p8]; simp

/-- Witness for `C2_nonmomentary_toggle` at the base state. -/
theorem C2_nonmomentary_toggle_witness :
    (gpioLoop true 300 baseState).lState = true
    ∧ (gpioLoop false 600 (gpioLoop true 300 baseState)).lState = false
    ∧ publishesOf (gpioLoop false 600 (gpioLoop true 300 baseState))
        = publishesOf baseState ++ [['1', '.'], ['1'], ['0', '.'], ['0']]
    ∧ relayWritesOf (gpioLoop false 600 (gpioLoop true 300 baseState))
        = relayWritesOf baseState ++ [true, false] :=
  C2_nonmomentary_toggle baseState 300 600 rfl rfl rfl rfl rfl rfl

/-- Momentary press with the relay off, while online and connected: the
relay toggles on with a single flagged publish. -/
theorem gpioLoop_mom_press {s : DozyState} (n : Nat) (hs : s.sState = false)
    (hl : s.lState = false) (hm : s.momentarySwitch = true)
    (hg : s.gpioTrigger = false) (hoff : s.offline = false)
    (hcon : s.mqttConnected = true) :
    (gpioLoop true n s).lState = true ∧ (gpioLoop true n s).sState = true
    ∧ (gpioLoop true n s).gpioTrigger = false
    ∧ (gpioLoop true n s).momentarySwitch = true
    ∧ (gpioLoop true n s).offline = false ∧ (gpioLoop true n s).mqttConnected = true
    ∧ publishesOf (gpioLoop true n s) = publishesOf s ++ [['1', '.']]
    ∧ relayWritesOf (gpioLoop true n s) = relayWritesOf s ++ [true] := by
  unfold gpioLoop gpioSample gpioRelay
  simp [hs, hl, hm, hg, hoff, hcon]
  exact ⟨rfl, rfl⟩

/-- Momentary release with the relay on, while online and connected: no
relay change, but one flagged publish reporting the current state. -/
theorem gpioLoop_mom_release {s : DozyState} (n : Nat) (hs : s.sState = true)
    (hl : s.lState = true) (hm : s.momentarySwitch = true)
    (hoff : s.offline = false) (hcon : s.mqttConnected = true) :
    (gpioLoop false n s).lState = true ∧ (gpioLoop false n s).sState = false
    ∧ (gpioLoop false n s).gpioTrigger = false
    ∧ publishesOf (gpioLoop false n s) = publishesOf s ++ [['1', '.']]
    ∧ relayWritesOf (gpioLoop false n s) = relayWritesOf s := by
  unfold gpioLoop gpioSample gpioRelay
  simp [hs, hl, hm, hoff, hcon]
  exact ⟨rfl, rfl⟩

/-- Claim C7: in momentary mode, starting from `on = false` while online and
connected, a press transition yields `on = true` with exactly one publish,
flagged as a user action; the following release transition performs no relay
state change (and writes nothing to the relay pin) but issues exactly one
flagged publish reporting the current state `on = true`. -/
theorem C7_momentary_toggle (s : DozyState) (n1 n2 : Nat)
    (hm : s.momentarySwitch = true) (hl : s.lState = false)
    (hs : s.sState = false) (hg : s.gpioTrigger = false)
    (hoff : s.offline = false) (hcon : s.mqttConnected = true) :
    (gpioLoop true n1 s).lState = true
    ∧ publishesOf (gpioLoop true n1 s) = publishesOf s ++ [['1', '.']]
    ∧ relayWritesOf (gpioLoop true n1 s) = relayWritesOf s ++ [true]
    ∧ (gpioLoop false n2 (gpioLoop true n1 s)).lState = true
    ∧ publishesOf (gpioLoop false n2 (gpioLoop true n1 s))
        = publishesOf s ++ [['1', '.'], ['1', '.']]
    ∧ relayWritesOf (gpioLoop false n2 (gpioLoop true n1 s))
        = relayWritesOf (gpioLoop true n1 s) := by
  obtain ⟨p1, p2, p3, p4, p5, p6, p7, p8⟩ :=
    gpioLoop_mom_press n1 hs hl hm hg hoff hcon
  obtain ⟨q1, q2, q3, q4, q5⟩ := gpioLoop_mom_release n2 p2 p1 p4 p5 p6
  refine ⟨p1, p7, p8, q1, ?_, q5⟩
  rw [q4, p7]; simp

/-- Witness for `C7_momentary_toggle` at the base state in momentary mode. -/
theorem C7_momentary_toggle_witness :
    (gpioLoop true 300 { baseState with momentarySwitch := true }).lState = true
    ∧ publishesOf (gpioLoop true 300 { baseState with momentarySwitch := true })
        = publishesOf { baseState with momentarySwitch := true } ++ [['1', '.']]
    ∧ relayWritesOf (gpioLoop true 300 { baseState with momentarySwitch := true })
        = relayWritesOf { baseState with momentarySwitch := true } ++ [true]
    ∧ (gpioLoop false 600 (gpioLoop true 300
        { baseState with momentarySwitch := true })).lState = true
    ∧ publishesOf (gpioLoop false 600 (gpioLoop true 300
        { baseState with momentarySwitch := true }))
        = publishesOf { baseState with momentarySwitch := true } ++ [['1', '.'], ['1', '.']]
    ∧ relayWritesOf (gpioLoop false 600 (gpioLoop true 300
        { baseState with momentarySwitch := true }))
        = relayWritesOf (gpioLoop true 300 { baseState with momentarySwitch := true }) :=
  C7_momentary_toggle { baseState with momentarySwitch := true } 300 600
    rfl rfl rfl rfl rfl rfl

/-! ## Claim C3: clearing of the user-trigger flag -/

/-- Claim C3, as stated, is false on the code: when the device is offline,
`enableL` still sets the relay state, but the requested publish is a no-op
and `gpioTrigger` is NOT cleared (the clearing assignment sits inside the
connected branch of `mqttCommunicate`). -/
theorem C3_counterexample :
    c3State.offline = true ∧ c3State.gpioTrigger = true
    ∧ (enableL c3State).lState = true
    ∧ (enableL c3State).gpioTrigger ≠ false := by
  decide

/-- Claim C3 (amended): each of `enableL` / `disableL` sets the relay state
and requests a publish; the `userTriggered` flag (`gpioTrigger`) is cleared
exactly when the publish actually goes out (device online and MQTT client
connected).  When the publish is a no-op because the device is offline or
the client is not connected, `gpioTrigger` is left unchanged (not cleared). -/
theorem C3_trigger_clear (s : DozyState) :
    ((s.offline = false ∧ s.mqttConnected = true) →
        (enableL s).gpioTrigger = false ∧ (disableL s).gpioTrigger = false
        ∧ publishesOf (enableL s)
            = publishesOf s ++ [('1' :: (if s.gpioTrigger then ['.'] else []))]
        ∧ publishesOf (disableL s)
            = publishesOf s ++ [('0' :: (if s.gpioTrigger then ['.'] else []))])
    ∧ ((s.offline = true ∨ s.mqttConnected = false) →
        (enableL s).gpioTrigger = s.gpioTrigger ∧ (disableL s).gpioTrigger = s.gpioTrigger
        ∧ publishesOf (enableL s) = publishesOf s
        ∧ publishesOf (disableL s) = publishesOf s)
    ∧ (enableL s).lState = true ∧ (disableL s).lState = false
    ∧ (enableL s).relayPin = true ∧ (disableL s).relayPin = false := by
  refine ⟨?_, ?_, enableL_lState s, disableL_lState s, enableL_relayPin s, disableL_relayPin s⟩
  · rintro ⟨hoff, hcon⟩
    simp [hoff, hcon]
  · intro h
    rcases h with h | h <;> simp [h]

/-- Witness for `C3_trigger_clear`: online at the base state the flag ends
cleared, and offline at `c3State` the flag survives. -/
theorem C3_trigger_clear_witness :
    (enableL baseState).gpioTrigger = false
    ∧ (enableL c3State).gpioTrigger = c3State.gpioTrigger :=
  ⟨((C3_trigger_clear baseState).1 ⟨rfl, rfl⟩).1,
   ((C3_trigger_clear c3State).2.1 (Or.inl rfl)).1⟩

/-! ## Command dispatcher: keyword matching -/

/-- Two keyword tests whose keywords begin with distinct characters cannot
both succeed on the same payload. -/
theorem isPrefixOf_head_exclusive (x y : Char) (xs ys cmd : List Char) (hxy : x ≠ y)
    (hx : List.isPrefixOf (x :: xs) cmd = true) :
    List.isPrefixOf (y :: ys) cmd = false := by
  cases cmd with
  | nil => simp at hx
  | cons c cs =>
      rw [List.isPrefixOf_cons₂] at hx ⊢
      simp only [Bool.and_eq_true, beq_iff_eq] at hx
      obtain ⟨rfl, -⟩ := hx
      have hyx : (y == x) = false := by
        simp only [beq_eq_false_iff_ne, ne_eq]
        exact fun hh => hxy hh.symm
      rw [hyx, Bool.false_and]

/-- The five independent keyword tests of `mqttCallback` behave exactly as
first-match-wins classification in the order {EnterProvisioning, Reset,
EnterUpdate, TurnOn, TurnOff}: since the keywords begin with pairwise
distinct characters, at most one test can succeed. -/
theorem dispatchActions_eq_specClassify (cmd : List Char) :
    dispatchActions cmd = (specClassify cmd).toList := by
  unfold dispatchActions specClassify CMD_SETUP CMD_RESET CMD_OTA CMD_ON CMD_OFF
  by_cases h1 : List.isPrefixOf ('s' :: ['e', 't']) cmd = true
  · have h2 := isPrefixOf_head_exclusive 's' 'r' ['e', 't'] ['s', 't'] cmd (by decide) h1
    have h3 := isPrefixOf_head_exclusive 's' 'o' ['e', 't'] ['t', 'a'] cmd (by decide) h1
    have h4 := isPrefixOf_head_exclusive 's' '1' ['e', 't'] [] cmd (by decide) h1
    have h5 := isPrefixOf_head_exclusive 's' '0' ['e', 't'] [] cmd (by decide) h1
    simp [h1, h2, h3, h4, h5]
  · rw [Bool.not_eq_true] at h1
    by_cases h2 : List.isPrefixOf ('r' :: ['s', 't']) cmd = true
    · have h3 := isPrefixOf_head_exclusive 'r' 'o' ['s', 't'] ['t', 'a'] cmd (by decide) h2
      have h4 := isPrefixOf_head_exclusive 'r' '1' ['s', 't'] [] cmd (by decide) h2
      have h5 := isPrefixOf_head_exclusive 'r' '0' ['s', 't'] [] cmd (by decide) h2
      simp [h1, h2, h3, h4, h5]
    · rw [Bool.not_eq_true] at h2
      by_cases h3 : List.isPrefixOf ('o' :: ['t', 'a']) cmd = true
      · have h4 := isPrefixOf_head_exclusive 'o' '1' ['t', 'a'] [] cmd (by decide) h3
        have h5 := isPrefixOf_head_exclusive 'o' '0' ['t', 'a'] [] cmd (by decide) h3
        simp [h1, h2, h3, h4, h5]
      · rw [Bool.not_eq_true] at h3
        by_cases h4 : List.isPrefixOf ('1' :: []) cmd = true
        · have h5 := isPrefixOf_head_exclusive '1' '0' [] [] cmd (by decide) h4
          simp [h1, h2, h3, h4, h5]
        · rw [Bool.not_eq_true] at h4
          by_cases h5 : List.isPrefixOf ('0' :: []) cmd = true
          · simp [h1, h2, h3, h4, h5]
          · rw [Bool.not_eq_true] at h5
            simp [h1, h2, h3, h4, h5]

/-- Claim C4: command classification is keyword-anchored (payload begins
with the keyword) and behaves as first-match-wins in the fixed source order
{EnterProvisioning "set", Reset "rst", EnterUpdate "ota", TurnOn "1",
TurnOff "0"}; in particular, dispatching the payload `"setota"` performs
exactly the enter-provisioning action (it starts the config portal) and
does not perform the enter-update action or any other. -/
theorem C4_command_precedence :
    (∀ cmd : List Char, dispatchActions cmd = (specClassify cmd).toList)
    ∧ dispatchActions (payloadToCmd setotaPayload) = [Action.enterProvisioning]
    ∧ ∀ (now : Nat) (s : DozyState), s.wifiManagerSetupRunning = false →
        mqttCallback setotaPayload now s
          = { s with events := s.events ++ [Event.startConfigPortal] } := by
  refine ⟨dispatchActions_eq_specClassify, by decide, ?_⟩
  intro now s hrun
  have c1 : CMD_SETUP.isPrefixOf (payloadToCmd setotaPayload) = true := by decide
  have c2 : CMD_RESET.isPrefixOf (payloadToCmd setotaPayload) = false := by decide
  have c3 : CMD_OTA.isPrefixOf (payloadToCmd setotaPayload) = false := by decide
  have c4 : CMD_ON.isPrefixOf (payloadToCmd setotaPayload) = false := by decide
  have c5 : CMD_OFF.isPrefixOf (payloadToCmd setotaPayload) = false := by decide
  simp [mqttCallback, startWifiManager, c1, c2, c3, c4, c5, hrun]

/-- Witness for `C4_command_precedence` at a concrete state. -/
theorem C4_command_precedence_witness :
    mqttCallback setotaPayload 5 baseState
      = { baseState with events := baseState.events ++ [Event.startConfigPortal] } :=
  C4_command_precedence.2.2 5 baseState rfl

/-- Claim C9: for every inbound payload at most one of the five command
actions executes, because the five keywords begin with pairwise distinct
characters, so no payload can begin with two of them. -/
theorem C9_at_most_one_action (payload : List Char) :
    (dispatchActions (payloadToCmd payload)).length ≤ 1 := by
  rw [dispatchActions_eq_specClassify]
  cases specClassify (payloadToCmd payload) <;> simp

/-! ## Claim C6: provisioning / update timeouts -/

theorem wifimanagerLoop_restart (now : Nat) (w : Bool) (s : DozyState) :
    (wifimanagerLoop now w s).restart
      = if s.wifiManagerSetupRunning = true
            ∧ wsub32 now s.wifiManagerSetupStart > CONFIG_TIMEOUT_MS
        then true else s.restart := by
  simp only [wifimanagerLoop, wmTimeoutCheck, wmWifiStatus, wifiManagerSetupStopped]
  split_ifs <;> simp_all

theorem loop_ota_restart (p wc ok : Bool) (now : Nat) (s : DozyState)
    (hota : s.otaRunning = true) :
    (loop p now wc ok s).restart
      = if wsub32 now s.otaStart > OTA_TIMEOUT_MS then true else s.restart := by
  simp only [loop, hota]
  split_ifs <;> simp_all

/-- Claim C6: if provisioning mode is entered with its start stamped `T`
(or update mode with `otaStart = T`) and no restart is pending, then a tick
at absolute elapsed time `e` (the tick observes `millis() = (T + e) mod
2^32`, which covers counter wraparound) leaves the restart flag clear for
all `e ≤ 300000` and sets it for all `300000 < e < 2^32`: the restart is
triggered at a time ≥ T+300000 ms and never before, and the comparison is
32-bit unsigned-difference arithmetic, correct across wraparound. -/
theorem C6_timeout (s : DozyState) (T e : Nat) (hT : T < WRAP) (he : e < WRAP)
    (hres : s.restart = false) :
    (s.wifiManagerSetupRunning = true → s.wifiManagerSetupStart = T →
      ∀ w : Bool,
        ((e ≤ 300000 → (wifimanagerLoop ((T + e) % WRAP) w s).restart = false)
         ∧ (300000 < e → (wifimanagerLoop ((T + e) % WRAP) w s).restart = true)))
    ∧ (s.otaRunning = true → s.otaStart = T →
      ∀ p wc ok : Bool,
        ((e ≤ 300000 → (loop p ((T + e) % WRAP) wc ok s).restart = false)
         ∧ (300000 < e → (loop p ((T + e) % WRAP) wc ok s).restart = true))) := by
  have hw : wsub32 ((T + e) % WRAP) T = e := wsub32_wrap hT he
  constructor
  · intro hrun hstart w
    rw [wifimanagerLoop_restart, hstart, hw]
    unfold CONFIG_TIMEOUT_MS
    constructor
    · intro hle
      rw [if_neg (by omega), hres]
    · intro hgt
      rw [if_pos ⟨hrun, by omega⟩]
  · intro hota hstart p wc ok
    rw [loop_ota_restart p wc ok _ s hota, hstart, hw]
    unfold OTA_TIMEOUT_MS
    constructor
    · intro hle
      rw [if_neg (by omega), hres]
    · intro hgt
      rw [if_pos (by omega)]

/-- Witness for `C6_timeout`: at the boundary the provisioning timeout has
not yet fired, and one millisecond later it has. -/
theorem C6_timeout_witness :
    (wifimanagerLoop ((1000 + 300000) % WRAP) true c6State).restart = false
    ∧ (wifimanagerLoop ((1000 + 300001) % WRAP) true c6State).restart = true :=
  ⟨((C6_timeout c6State 1000 300000 (by decide) (by decide) rfl).1
      rfl rfl true).1 (by decide),
   ((C6_timeout c6State 1000 300001 (by decide) (by decide) rfl).1
      rfl rfl true).2 (by decide)⟩

/-! ## Claim C5: MQTT reconnect backoff -/

theorem mqttReconnect_noattempt (s : DozyState) (now : Nat) (connectOk : Bool)
    (hcon : s.mqttConnected = false)
    (hle : wsub32 now s.mqttConnectAttempt ≤ s.mqttConnectDelay) :
    mqttReconnect now connectOk s = (s, false) := by
  unfold mqttReconnect
  rw [hcon]
  rw [if_pos (by simp), if_neg (by omega)]

set_option maxRecDepth 10000 in
theorem mqttReconnect_fail_eq (s : DozyState) (now : Nat)
    (hcon : s.mqttConnected = false)
    (hgt : s.mqttConnectDelay < wsub32 now s.mqttConnectAttempt) :
    mqttReconnect now false s
      = ({ s with mqttConnectDelay := min (s.mqttConnectDelay + 1000) 60000,
                  mqttConnectAttempt := now,
                  events := s.events ++ [Event.mqttConnectTry false] }, false) := by
  unfold mqttReconnect
  rw [hcon]
  rw [if_pos (show (!false) = true from rfl), if_pos hgt,
      if_neg (show ¬ ((false : Bool) = true) from by decide)]
  rw [show (if s.mqttConnectDelay + 1000 > 60000 then 60000 else s.mqttConnectDelay + 1000)
        = min (s.mqttConnectDelay + 1000) 60000 from by split_ifs with h <;> omega]

theorem backoff_min_step (j : Nat) :
    min (min (1000 * j) 60000 + 1000) 60000 = min (1000 * (j + 1)) 60000 := by omega

set_option maxRecDepth 10000 in
theorem reconnectFailRun_delay (ts : List Nat) :
    ∀ (j : Nat) (s : DozyState), s.mqttConnected = false →
      s.mqttConnectDelay = min (1000 * j) 60000 →
      schedOk s.mqttConnectAttempt s.mqttConnectDelay ts = true →
      ∀ i, i ≤ ts.length →
        (reconnectFailRun s (ts.take i)).mqttConnectDelay
          = min (1000 * (j + i)) 60000 := by
  induction ts with
  | nil =>
      intro j s _ hd _ i hi
      have hz : i = 0 := Nat.le_zero.mp (by simpa using hi)
      subst hz
      simpa [reconnectFailRun] using hd
  | cons t ts ih =>
      intro j s hcon hd hs i hi
      cases i with
      | zero => simpa [reconnectFailRun] using hd
      | succ i =>
          simp only [schedOk, Bool.and_eq_true, decide_eq_true_eq] at hs
          obtain ⟨⟨⟨hle, hwrap⟩, hgt⟩, hrest⟩ := hs
          have hgt' : s.mqttConnectDelay < wsub32 t s.mqttConnectAttempt := by
            rw [wsub32_sub hle hwrap]; exact hgt
          simp only [List.take_succ_cons, reconnectFailRun,
            mqttReconnect_fail_eq s t hcon hgt']
          refine Eq.trans (ih (j + 1)
            { s with mqttConnectDelay := min (s.mqttConnectDelay + 1000) 60000,
                     mqttConnectAttempt := t,
                     events := s.events ++ [Event.mqttConnectTry false] }
            hcon ?_ ?_ i ?_) ?_
          · show min (s.mqttConnectDelay + 1000) 60000 = min (1000 * (j + 1)) 60000
            rw [hd]
            exact backoff_min_step j
          · exact hrest
          · simp only [List.length_cons] at hi
            exact Nat.succ_le_succ_iff.mp hi
          · rw [Nat.add_assoc, Nat.add_comm 1 i]

set_option maxRecDepth 10000 in
/-- Claim C5: an MQTT connect attempt is made only when the time since the
last attempt (32-bit unsigned difference) exceeds the current backoff
delay; along any schedule of K consecutive failed attempts starting from
backoff 0, the backoff after attempt i equals `min(1000*i, 60000)`; and the
backoff resets to 0 (with the connected flag set and a resubscribe)
immediately on the first successful connect. -/
theorem C5_backoff :
    (∀ (s : DozyState) (now : Nat) (connectOk : Bool),
        s.mqttConnected = false →
        wsub32 now s.mqttConnectAttempt ≤ s.mqttConnectDelay →
        mqttReconnect now connectOk s = (s, false))
    ∧ (∀ (s : DozyState) (ts : List Nat),
        s.mqttConnected = false → s.mqttConnectDelay = 0 →
        schedOk s.mqttConnectAttempt s.mqttConnectDelay ts = true →
        ∀ i, i ≤ ts.length →
          (reconnectFailRun s (ts.take i)).mqttConnectDelay
            = min (1000 * i) 60000)
    ∧ (∀ (s : DozyState) (now : Nat),
        s.mqttConnected = false →
        s.mqttConnectDelay < wsub32 now s.mqttConnectAttempt →
        (mqttReconnect now true s).1.mqttConnectDelay = 0
        ∧ (mqttReconnect now true s).1.mqttConnected = true
        ∧ (mqttReconnect now true s).2 = true) := by
  refine ⟨mqttReconnect_noattempt, ?_, ?_⟩
  · intro s ts hcon hd hs i hi
    have := reconnectFailRun_delay ts 0 s hcon (by simp [hd]) hs i hi
    simpa using this
  · intro s now hcon hgt
    unfold mqttReconnect
    rw [hcon]
    rw [if_pos (show (!false) = true from rfl), if_pos hgt,
        if_pos (show (true : Bool) = true from rfl)]
    exact ⟨rfl, rfl, rfl⟩

/-- Witness for `C5_backoff`: after three failed attempts at 1, 70000 and
140000 ms, the backoff is 3000 ms. -/
theorem C5_backoff_witness :
    (reconnectFailRun c5State ([1, 70000, 140000].take 3)).mqttConnectDelay
      = min (1000 * 3) 60000 :=
  C5_backoff.2.1 c5State [1, 70000, 140000] rfl rfl (by decide) 3 (by decide)

/-! ## Claim C8: event ordering within one control-loop tick -/

theorem EventsExtend.trans {P : Event → Prop} {s t u : DozyState}
    (h1 : EventsExtend P s t) (h2 : EventsExtend P t u) : EventsExtend P s u := by
  obtain ⟨l1, e1, p1⟩ := h1
  obtain ⟨l2, e2, p2⟩ := h2
  refine ⟨l1 ++ l2, by rw [e2, e1, List.append_assoc], ?_⟩
  intro e he
  rcases List.mem_append.mp he with h | h
  exacts [p1 e h, p2 e h]

theorem gpioSample_fst_events (p : Bool) (s : DozyState) :
    (gpioSample p s).1.events = s.events := by
  unfold gpioSample; split <;> rfl

theorem gpioSample_extend (P : Event → Prop) (p : Bool) (s : DozyState) :
    EventsExtend P s (gpioSample p s).1 :=
  ⟨[], by rw [gpioSample_fst_events, List.append_nil], by simp⟩

theorem mqttCommunicate_extendGpio (s : DozyState) :
    EventsExtend (fun e => isGpioPhaseEvent e = true) s (mqttCommunicate s) := by
  unfold mqttCommunicate EventsExtend
  split
  · exact ⟨_, rfl, by simp [isGpioPhaseEvent]⟩
  · exact ⟨[], by simp, by simp⟩

theorem enableL_extendGpio (s : DozyState) :
    EventsExtend (fun e => isGpioPhaseEvent e = true) s (enableL s) := by
  unfold enableL
  exact EventsExtend.trans ⟨_, rfl, by simp [isGpioPhaseEvent]⟩
    (mqttCommunicate_extendGpio _)

theorem disableL_extendGpio (s : DozyState) :
    EventsExtend (fun e => isGpioPhaseEvent e = true) s (disableL s) := by
  unfold disableL
  exact EventsExtend.trans ⟨_, rfl, by simp [isGpioPhaseEvent]⟩
    (mqttCommunicate_extendGpio _)

theorem gpioRelay_extendGpio (s : DozyState) :
    EventsExtend (fun e => isGpioPhaseEvent e = true) s (gpioRelay s) := by
  simp only [gpioRelay]
  have base : EventsExtend (fun e => isGpioPhaseEvent e = true) s
      { s with gpioTrigger := true } := ⟨[], by simp, by simp⟩
  split_ifs <;>
    exact base.trans (by first
      | exact mqttCommunicate_extendGpio _
      | exact enableL_extendGpio _
      | exact disableL_extendGpio _
      | exact (enableL_extendGpio _).trans (mqttCommunicate_extendGpio _)
      | exact (disableL_extendGpio _).trans (mqttCommunicate_extendGpio _))

theorem startWifiManager_extendGpio (s : DozyState) :
    EventsExtend (fun e => isGpioPhaseEvent e = true) s (startWifiManager true s) := by
  unfold startWifiManager
  split_ifs with h1 h2
  · exact ⟨[], by simp, by simp⟩
  · exact ⟨_, rfl, by simp [isGpioPhaseEvent]⟩
  · exact absurd rfl h2

theorem gpioGesture_extendGpio (now : Nat) (s : DozyState) :
    EventsExtend (fun e => isGpioPhaseEvent e = true) s (gpioGesture now s) := by
  simp only [gpioGesture]
  split
  · exact EventsExtend.trans ⟨[], by simp, by simp⟩ (startWifiManager_extendGpio _)
  · exact ⟨[], by simp, by simp⟩

theorem gpioLoop_extendGpio (p : Bool) (now : Nat) (s : DozyState) :
    EventsExtend (fun e => isGpioPhaseEvent e = true) s (gpioLoop p now s) := by
  simp only [gpioLoop]
  split_ifs
  · exact ((gpioSample_extend _ p s).trans (gpioRelay_extendGpio _)).trans
      (gpioGesture_extendGpio now _)
  · exact gpioSample_extend _ p s

theorem wmTimeoutCheck_extendWm (now : Nat) (s : DozyState) :
    EventsExtend (fun e => isWmPhaseEvent e = true) s (wmTimeoutCheck now s) := by
  unfold wmTimeoutCheck wifiManagerSetupStopped
  split_ifs
  · exact ⟨_, rfl, by simp [isWmPhaseEvent]⟩
  · exact ⟨[], by simp, by simp⟩
  · exact ⟨_, rfl, by simp [isWmPhaseEvent]⟩
  · exact ⟨_, rfl, by simp [isWmPhaseEvent]⟩

theorem wmWifiStatus_extendWm (w : Bool) (s : DozyState) :
    EventsExtend (fun e => isWmPhaseEvent e = true) s (wmWifiStatus w s) := by
  unfold wmWifiStatus
  split_ifs
  · exact ⟨_, rfl, by simp [isWmPhaseEvent]⟩
  · exact ⟨[], by simp, by simp⟩
  · exact ⟨[], by simp, by simp⟩

theorem wifimanagerLoop_extendWm (now : Nat) (w : Bool) (s : DozyState) :
    EventsExtend (fun e => isWmPhaseEvent e = true) s (wifimanagerLoop now w s) := by
  simp only [wifimanagerLoop]
  refine (EventsExtend.trans (EventsExtend.trans
    (⟨_, rfl, by simp [isWmPhaseEvent]⟩ :
      EventsExtend _ s { s with events := s.events ++ [Event.wifiManagerProcess] })
    (wmTimeoutCheck_extendWm now _)) (wmWifiStatus_extendWm w _)).trans ?_
  split
  · exact ⟨_, rfl, by simp [isWmPhaseEvent]⟩
  · exact ⟨[], by simp, by simp⟩

theorem mqttReconnect_extendMqtt (now : Nat) (ok : Bool) (s : DozyState) :
    EventsExtend (fun e => isMqttPhaseEvent e = true) s (mqttReconnect now ok s).1 := by
  simp only [mqttReconnect]
  split_ifs with h1 h2 h3 h4
  · exact ⟨[Event.mqttConnectTry ok, Event.subscribe],
      by simp, by simp [isMqttPhaseEvent]⟩
  · exact ⟨[Event.mqttConnectTry ok], by simp, by simp [isMqttPhaseEvent]⟩
  · exact ⟨[Event.mqttConnectTry ok], by simp, by simp [isMqttPhaseEvent]⟩
  · exact ⟨[], by simp, by simp⟩
  · exact ⟨[], by simp, by simp⟩

theorem mqttLoop_extendMqtt (now : Nat) (ok : Bool) (s : DozyState) :
    EventsExtend (fun e => isMqttPhaseEvent e = true) s (mqttLoop now ok s) := by
  simp only [mqttLoop]
  split_ifs with h1 h2
  · exact mqttReconnect_extendMqtt now ok s
  · exact (mqttReconnect_extendMqtt now ok s).trans ⟨_, rfl, by simp [isMqttPhaseEvent]⟩
  · exact ⟨_, rfl, by simp [isMqttPhaseEvent]⟩

/-- Claim C8, as stated, is false on the code: in a tick where provisioning
mode is running and its timeout has expired, the mode-timeout action
(`stopConfigPortal`) happens strictly before MQTT connectivity servicing
(`mqttClient.loop()`), so connectivity servicing does not come before
mode-timeout checks.  The concrete tick's full trace also shows the
restart honored last. -/
theorem C8_counterexample :
    (Dozy.loop false 300001 true true c8State).events
      = [Event.wifiManagerProcess, Event.stopConfigPortal, Event.mdnsLoop,
         Event.mqttClientLoop, Event.delaySleep, Event.espRestart]
    ∧ List.Sublist [Event.stopConfigPortal, Event.mqttClientLoop]
        (Dozy.loop false 300001 true true c8State).events
    ∧ ¬ List.Sublist [Event.mqttClientLoop, Event.stopConfigPortal]
        (Dozy.loop false 300001 true true c8State).events := by
  decide

/-- Claim C8 (amended): within every non-update control-loop tick, the
trace decomposes into consecutive segments: switch-input processing first,
then WiFiManager servicing together with the provisioning mode-timeout
check, then MQTT connectivity servicing, then the power-save delay, and a
restart — if pending — is honored only as the very last action of the
tick, never mid-tick.  (The order of the middle two segments is the
opposite of the claimed one: the provisioning timeout check runs before
MQTT connectivity servicing.) -/
theorem C8_tick_order (pressedRaw : Bool) (now : Nat) (wc ok : Bool) (s : DozyState)
    (hota : s.otaRunning = false) :
    ∃ l1 l2 l3 r,
      (Dozy.loop pressedRaw now wc ok s).events
        = s.events ++ l1 ++ l2 ++ l3 ++ [Event.delaySleep] ++ r
      ∧ (∀ e ∈ l1, isGpioPhaseEvent e = true)
      ∧ (∀ e ∈ l2, isWmPhaseEvent e = true)
      ∧ (∀ e ∈ l3, isMqttPhaseEvent e = true)
      ∧ ((r = [Event.espRestart]
            ∧ (Dozy.loop pressedRaw now wc ok s).restart = true)
         ∨ (r = [] ∧ (Dozy.loop pressedRaw now wc ok s).restart = false)) := by
  obtain ⟨l1, e1, p1⟩ := gpioLoop_extendGpio pressedRaw now s
  obtain ⟨l2, e2, p2⟩ :=
    wifimanagerLoop_extendWm now wc (gpioLoop pressedRaw now s)
  cases hoffb : (wifimanagerLoop now wc (gpioLoop pressedRaw now s)).offline with
  | false =>
      obtain ⟨l3, e3, p3⟩ :=
        mqttLoop_extendMqtt now ok (wifimanagerLoop now wc (gpioLoop pressedRaw now s))
      cases hrb : (mqttLoop now ok
          (wifimanagerLoop now wc (gpioLoop pressedRaw now s))).restart with
      | true =>
          refine ⟨l1, l2, l3, [Event.espRestart], ?_, p1, p2, p3, Or.inl ⟨rfl, ?_⟩⟩ <;>
            simp [Dozy.loop, hota, hoffb, hrb, e1, e2, e3, List.append_assoc]
      | false =>
          refine ⟨l1, l2, l3, [], ?_, p1, p2, p3, Or.inr ⟨rfl, ?_⟩⟩ <;>
            simp [Dozy.loop, hota, hoffb, hrb, e1, e2, e3, List.append_assoc]
  | true =>
      cases hrb : (wifimanagerLoop now wc (gpioLoop pressedRaw now s)).restart with
      | true =>
          refine ⟨l1, l2, [], [Event.espRestart], ?_, p1, p2, by simp, Or.inl ⟨rfl, ?_⟩⟩ <;>
            simp [Dozy.loop, hota, hoffb, hrb, e1, e2, List.append_assoc]
      | false =>
          refine ⟨l1, l2, [], [], ?_, p1, p2, by simp, Or.inr ⟨rfl, ?_⟩⟩ <;>
            simp [Dozy.loop, hota, hoffb, hrb, e1, e2, List.append_assoc]

/-- Witness for `C8_tick_order` at a quiet base-state tick. -/
theorem C8_tick_order_witness :
    ∃ l1 l2 l3 r,
      (Dozy.loop false 7 true true baseState).events
        = baseState.events ++ l1 ++ l2 ++ l3 ++ [Event.delaySleep] ++ r
      ∧ (∀ e ∈ l1, isGpioPhaseEvent e = true)
      ∧ (∀ e ∈ l2, isWmPhaseEvent e = true)
      ∧ (∀ e ∈ l3, isMqttPhaseEvent e = true)
      ∧ ((r = [Event.espRestart]
            ∧ (Dozy.loop false 7 true true baseState).restart = true)
         ∨ (r = [] ∧ (Dozy.loop false 7 true true baseState).restart = false)) :=
  C8_tick_order false 7 true true baseState rfl

/-! ## Claim C10: relay / green-LED / lState invariant -/

@[simp] theorem gpioSample_fst_relayPin (p : Bool) (s : DozyState) :
    (gpioSample p s).1.relayPin = s.relayPin := by
  unfold gpioSample; split <;> rfl

@[simp] theorem gpioSample_fst_ledGreenPin (p : Bool) (s : DozyState) :
    (gpioSample p s).1.ledGreenPin = s.ledGreenPin := by
  unfold gpioSample; split <;> rfl

@[simp] theorem gpioSample_fst_lState (p : Bool) (s : DozyState) :
    (gpioSample p s).1.lState = s.lState := by
  unfold gpioSample; split <;> rfl

@[simp] theorem wmTimeoutCheck_relayPin (n : Nat) (s : DozyState) :
    (wmTimeoutCheck n s).relayPin = s.relayPin := by
  unfold wmTimeoutCheck wifiManagerSetupStopped; split_ifs <;> rfl

@[simp] theorem wmTimeoutCheck_ledGreenPin (n : Nat) (s : DozyState) :
    (wmTimeoutCheck n s).ledGreenPin = s.ledGreenPin := by
  unfold wmTimeoutCheck wifiManagerSetupStopped; split_ifs <;> rfl

@[simp] theorem wmTimeoutCheck_lState (n : Nat) (s : DozyState) :
    (wmTimeoutCheck n s).lState = s.lState := by
  unfold wmTimeoutCheck wifiManagerSetupStopped; split_ifs <;> rfl

@[simp] theorem wmWifiStatus_relayPin (w : Bool) (s : DozyState) :
    (wmWifiStatus w s).relayPin = s.relayPin := by
  unfold wmWifiStatus; split_ifs <;> rfl

@[simp] theorem wmWifiStatus_ledGreenPin (w : Bool) (s : DozyState) :
    (wmWifiStatus w s).ledGreenPin = s.ledGreenPin := by
  unfold wmWifiStatus; split_ifs <;> rfl

@[simp] theorem wmWifiStatus_lState (w : Bool) (s : DozyState) :
    (wmWifiStatus w s).lState = s.lState := by
  unfold wmWifiStatus; split_ifs <;> rfl

@[simp] theorem wifimanagerLoop_relayPin (n : Nat) (w : Bool) (s : DozyState) :
    (wifimanagerLoop n w s).relayPin = s.relayPin := by
  simp only [wifimanagerLoop]; split <;> simp

@[simp] theorem wifimanagerLoop_ledGreenPin (n : Nat) (w : Bool) (s : DozyState) :
    (wifimanagerLoop n w s).ledGreenPin = s.ledGreenPin := by
  simp only [wifimanagerLoop]; split <;> simp

@[simp] theorem wifimanagerLoop_lState (n : Nat) (w : Bool) (s : DozyState) :
    (wifimanagerLoop n w s).lState = s.lState := by
  simp only [wifimanagerLoop]; split <;> simp

@[simp] theorem mqttReconnect_fst_relayPin (n : Nat) (ok : Bool) (s : DozyState) :
    (mqttReconnect n ok s).1.relayPin = s.relayPin := by
  simp only [mqttReconnect]; split_ifs <;> rfl

@[simp] theorem mqttReconnect_fst_ledGreenPin (n : Nat) (ok : Bool) (s : DozyState) :
    (mqttReconnect n ok s).1.ledGreenPin = s.ledGreenPin := by
  simp only [mqttReconnect]; split_ifs <;> rfl

@[simp] theorem mqttReconnect_fst_lState (n : Nat) (ok : Bool) (s : DozyState) :
    (mqttReconnect n ok s).1.lState = s.lState := by
  simp only [mqttReconnect]; split_ifs <;> rfl

@[simp] theorem mqttLoop_relayPin (n : Nat) (ok : Bool) (s : DozyState) :
    (mqttLoop n ok s).relayPin = s.relayPin := by
  simp only [mqttLoop]; split_ifs <;> simp

@[simp] theorem mqttLoop_ledGreenPin (n : Nat) (ok : Bool) (s : DozyState) :
    (mqttLoop n ok s).ledGreenPin = s.ledGreenPin := by
  simp only [mqttLoop]; split_ifs <;> simp

@[simp] theorem mqttLoop_lState (n : Nat) (ok : Bool) (s : DozyState) :
    (mqttLoop n ok s).lState = s.lState := by
  simp only [mqttLoop]; split_ifs <;> simp

@[simp] theorem ledTick_relayPin (s : DozyState) : (ledTick s).relayPin = s.relayPin := rfl

@[simp] theorem ledTick_ledGreenPin (s : DozyState) :
    (ledTick s).ledGreenPin = s.ledGreenPin := rfl

@[simp] theorem ledTick_lState (s : DozyState) : (ledTick s).lState = s.lState := rfl

theorem otaProgress_relayPin (s : DozyState) : (otaProgress s).relayPin = s.relayPin := by
  unfold otaProgress; split <;> rfl

theorem otaProgress_lState (s : DozyState) : (otaProgress s).lState = s.lState := by
  unfold otaProgress; split <;> rfl

theorem InvC10_enableL (s : DozyState) : InvC10 (enableL s) := by
  unfold InvC10; simp

theorem InvC10_disableL (s : DozyState) : InvC10 (disableL s) := by
  unfold InvC10; simp

theorem InvC10_mqttCommunicate {s : DozyState} (h : InvC10 s) :
    InvC10 (mqttCommunicate s) := by
  unfold InvC10 at h ⊢; simpa using h

theorem InvC10_gpioRelay {s : DozyState} (h : InvC10 s) : InvC10 (gpioRelay s) := by
  unfold InvC10 at h ⊢
  simp only [gpioRelay]
  split_ifs <;> simp_all

theorem InvC10_gpioGesture {s : DozyState} (n : Nat) (h : InvC10 s) :
    InvC10 (gpioGesture n s) := by
  unfold InvC10 at h ⊢; simpa using h

theorem InvC10_gpioLoop {s : DozyState} (p : Bool) (n : Nat) (h : InvC10 s) :
    InvC10 (gpioLoop p n s) := by
  simp only [gpioLoop]
  split_ifs
  · exact InvC10_gpioGesture n (InvC10_gpioRelay
      (by unfold InvC10 at h ⊢; simpa using h))
  · unfold InvC10 at h ⊢; simpa using h

theorem InvC10_wifimanagerLoop {s : DozyState} (n : Nat) (w : Bool) (h : InvC10 s) :
    InvC10 (wifimanagerLoop n w s) := by
  unfold InvC10 at h ⊢; simpa using h

theorem InvC10_mqttLoop {s : DozyState} (n : Nat) (ok : Bool) (h : InvC10 s) :
    InvC10 (mqttLoop n ok s) := by
  unfold InvC10 at h ⊢; simpa using h

theorem InvC10_startWifiManager {s : DozyState} (o : Bool) (h : InvC10 s) :
    InvC10 (startWifiManager o s) := by
  unfold InvC10 at h ⊢; simpa using h

theorem InvC10_mqttCallback {s : DozyState} (pl : List Char) (n : Nat) (h : InvC10 s) :
    InvC10 (mqttCallback pl n s) := by
  simp only [mqttCallback]
  split_ifs <;>
    first
      | exact InvC10_disableL _
      | exact InvC10_enableL _
      | (unfold InvC10 at h ⊢; simp_all)

theorem InvC10_ledTick {s : DozyState} (h : InvC10 s) : InvC10 (ledTick s) := by
  unfold InvC10 at h ⊢; simpa using h

theorem InvC10_loop {s : DozyState} (p : Bool) (n : Nat) (w ok : Bool) (h : InvC10 s) :
    InvC10 (Dozy.loop p n w ok s) := by
  simp only [Dozy.loop]
  have hmain : ∀ t : DozyState, InvC10 t →
      InvC10 (if t.restart = true
        then { t with events := t.events ++ [Event.espRestart] } else t) := by
    intro t ht
    split
    · unfold InvC10 at ht ⊢; simpa using ht
    · exact ht
  apply hmain
  split_ifs with h1 h2 h3
  · unfold InvC10 at h ⊢; simpa using h
  · unfold InvC10 at h ⊢; simpa using h
  · have := InvC10_mqttLoop n ok (InvC10_wifimanagerLoop n w (InvC10_gpioLoop p n h))
    unfold InvC10 at this ⊢; simpa using this
  · have := InvC10_wifimanagerLoop n w (InvC10_gpioLoop p n h)
    unfold InvC10 at this ⊢; simpa using this

/-- Claim C10, as stated, is false on the code: the OTA progress callback
registered in `setup()` drives the green LED as half of an alternating
blink pattern, independently of `lState`.  From a state satisfying the
invariant (relay on, green LED lit, red LED pin HIGH), one progress
callback turns the green LED off while `lState` stays true — though it
changes neither the relay output nor `lState`. -/
theorem C10_counterexample :
    InvC10 c10State
    ∧ (otaProgress c10State).relayPin = c10State.relayPin
    ∧ (otaProgress c10State).lState = c10State.lState
    ∧ ¬ InvC10 (otaProgress c10State) := by
  decide

/-- Claim C10 (amended): the invariant "relay pin HIGH iff `lState`, and
green LED lit iff `lState`" holds at the end of `setup()` and is preserved
by every modelled core operation (`loop`, `gpioLoop`, `wifimanagerLoop`,
`mqttLoop`, `mqttCallback`, `mqttCommunicate`, `enableL`, `disableL`,
`ledTick`); `enableL` and `disableL` establish it unconditionally and are
the only operations that change the relay output or `lState` — the others
preserve both fields, including the OTA progress callback, which however
can break the green-LED half of the invariant (it blinks the green LED
during a firmware update regardless of `lState`). -/
theorem C10_relay_led_invariant :
    (∀ (s : DozyState) (p : Bool) (n : Nat) (w ok : Bool),
        InvC10 s → InvC10 (Dozy.loop p n w ok s))
    ∧ (∀ b m : Bool, InvC10 (setupEndState b m))
    ∧ (∀ s : DozyState, InvC10 (enableL s))
    ∧ (∀ s : DozyState, InvC10 (disableL s))
    ∧ (∀ s : DozyState, InvC10 s → InvC10 (mqttCommunicate s))
    ∧ (∀ (s : DozyState) (p : Bool) (n : Nat), InvC10 s → InvC10 (gpioLoop p n s))
    ∧ (∀ (s : DozyState) (n : Nat) (w : Bool), InvC10 s → InvC10 (wifimanagerLoop n w s))
    ∧ (∀ (s : DozyState) (n : Nat) (ok : Bool), InvC10 s → InvC10 (mqttLoop n ok s))
    ∧ (∀ (s : DozyState) (pl : List Char) (n : Nat), InvC10 s → InvC10 (mqttCallback pl n s))
    ∧ (∀ s : DozyState, InvC10 s → InvC10 (ledTick s))
    ∧ (∀ s : DozyState, (otaProgress s).relayPin = s.relayPin
        ∧ (otaProgress s).lState = s.lState)
    ∧ (∀ s : DozyState, (mqttCommunicate s).relayPin = s.relayPin
        ∧ (mqttCommunicate s).lState = s.lState)
    ∧ (∀ (s : DozyState) (n : Nat) (w : Bool),
        (wifimanagerLoop n w s).relayPin = s.relayPin
        ∧ (wifimanagerLoop n w s).lState = s.lState)
    ∧ (∀ (s : DozyState) (n : Nat) (ok : Bool),
        (mqttLoop n ok s).relayPin = s.relayPin
        ∧ (mqttLoop n ok s).lState = s.lState)
    ∧ (∀ s : DozyState, (ledTick s).relayPin = s.relayPin
        ∧ (ledTick s).lState = s.lState) := by
  refine ⟨fun s p n w ok h => InvC10_loop p n w ok h,
    fun b m => by unfold InvC10 setupEndState; simp,
    InvC10_enableL, InvC10_disableL,
    fun s h => InvC10_mqttCommunicate h,
    fun s p n h => InvC10_gpioLoop p n h,
    fun s n w h => InvC10_wifimanagerLoop n w h,
    fun s n ok h => InvC10_mqttLoop n ok h,
    fun s pl n h => InvC10_mqttCallback pl n h,
    fun s h => InvC10_ledTick h,
    fun s => ⟨otaProgress_relayPin s, otaProgress_lState s⟩,
    fun s => ⟨mqttCommunicate_relayPin s, mqttCommunicate_lState s⟩,
    fun s n w => ⟨wifimanagerLoop_relayPin n w s, wifimanagerLoop_lState n w s⟩,
    fun s n ok => ⟨mqttLoop_relayPin n ok s, mqttLoop_lState n ok s⟩,
    fun s => ⟨ledTick_relayPin s, ledTick_lState s⟩⟩

/-- Witness for `C10_relay_led_invariant` at a concrete quiet tick. -/
theorem C10_relay_led_invariant_witness :
    InvC10 (Dozy.loop false 7 true true baseState) :=
  C10_relay_led_invariant.1 baseState false 7 true true (by decide)

end Dozy
